import Mathlib

/-!
Verification of the AgroIA satellite-analysis core against its design
specification.  The JavaScript sources
(`backend/modules/satellite-analysis/services/ndviAnalysisService.js`,
`farmAlertService.js` and `cron/dailyAnalysis.js`) are shallowly embedded
below: numeric pixel values are embedded as exact rationals (ℚ), the raw
`Buffer` band data as lists of byte values, JavaScript exceptions as
`Except`, and the ambient clock (`new Date()`) as an explicit parameter.
`toFixed(n)` followed by `parseFloat` is embedded as rounding to `n`
decimal digits.  `Math.sqrt` (whose exact value is irrational) is embedded
as a computable nonnegative rational square-root approximation `sqrtQ`;
every property proved about it relies only on its nonnegativity.
-/

namespace AgroIA

/-- Rounding to two decimal digits: embeds JavaScript
`parseFloat(x.toFixed(2))`. -/
def round2 (q : ℚ) : ℚ := ((round (q * 100) : ℤ) : ℚ) / 100

/-- Rounding to four decimal digits: embeds JavaScript
`parseFloat(x.toFixed(4))`. -/
def round4 (q : ℚ) : ℚ := ((round (q * 10000) : ℤ) : ℚ) / 10000

/-- Computable nonnegative rational square-root approximation standing in
for JavaScript `Math.sqrt` (the exact square root of a rational is
irrational in general).  Only its nonnegativity is used in proofs. -/
def sqrtQ (q : ℚ) : ℚ := ((Nat.sqrt (q.num.toNat * q.den) : ℤ) : ℚ) / ((q.den : ℤ) : ℚ)

/-- NDVI classification thresholds (`this.thresholds` in
`NDVIAnalysisService`); environment-variable overrides are embedded by
passing an arbitrary `Thresholds` value. -/
structure Thresholds where
  low : ℚ
  normal : ℚ
  high : ℚ
deriving DecidableEq

/-- The default thresholds `{low: 0.2, normal: 0.4, high: 0.7}`. -/
def defaultThresholds : Thresholds := ⟨2/10, 4/10, 7/10⟩

/-- One spectral band: a raw single-channel image buffer of `width*height`
byte samples, as produced by `sharp(...).raw().toBuffer()`.  The two proof
fields record what is true of every JavaScript `Buffer` holding a raw
`width × height` one-channel image: its length and the byte range. -/
structure BandRaster where
  width : ℕ
  height : ℕ
  data : List ℕ
  size_eq : data.length = width * height
  bytes : ∀ x ∈ data, x ≤ 255

/-- Per-pixel NDVI computation from one NIR byte and one red byte (the
body of the loop in `_computeNDVIPixels`): each raw sample is normalised
to [0,1] by dividing by 255, and a zero denominator yields 0. -/
def ndviPixel (a b : ℕ) : ℚ :=
  let nir : ℚ := (a : ℚ) / 255
  let red : ℚ := (b : ℚ) / 255
  let denominator := nir + red
  if denominator ≠ 0 then (nir - red) / denominator else 0

/-- `_computeNDVIPixels`: the index loop `for (i = 0; i < nirData.length;
i += 1)` reading `nirData[i]` and `redData[i]` is embedded as `zipWith`;
under the dimension guard of `calculateNDVI` the two buffers have equal
length, where the loop and `zipWith` coincide. -/
def computeNDVIPixels (nirData redData : List ℕ) : List ℚ :=
  List.zipWith ndviPixel nirData redData

/-- The validity filter of `_calculateStatistics`:
`val => !isNaN(val) && val >= -1 && val <= 1`.  `NaN` has no rational
embedding (no pipeline value is ever `NaN`), so only the range test
remains. -/
def validFilter (ndviData : List ℚ) : List ℚ :=
  ndviData.filter (fun v => -1 ≤ v ∧ v ≤ 1)

/-- Result record of `_calculateStatistics`.  In the zero-valid-pixels
branch the JavaScript object carries no `validPixels`/`totalPixels`
properties (they are `undefined`), embedded here as `none`. -/
structure NdviStats where
  average : ℚ
  min : ℚ
  max : ℚ
  std : ℚ
  validPixels : Option ℕ
  totalPixels : Option ℕ
deriving DecidableEq

/-- `_calculateStatistics`: filters to valid values; on an empty filter
returns all-zero statistics; otherwise mean, `Math.min`/`Math.max` over
the non-empty list, population variance and standard deviation, each
rounded to four decimals. -/
def calculateStatistics (ndviData : List ℚ) : NdviStats :=
  match validFilter ndviData with
  | [] => ⟨0, 0, 0, 0, none, none⟩
  | v :: vs =>
    let validValues := v :: vs
    let sum := validValues.foldl (· + ·) 0
    let average := sum / (validValues.length : ℚ)
    let mn := vs.foldl min v
    let mx := vs.foldl max v
    let variance :=
      (validValues.foldl (fun acc val => acc + (val - average) ^ 2) 0) / (validValues.length : ℚ)
    let std := sqrtQ variance
    ⟨round4 average, round4 mn, round4 mx, round4 std,
      some validValues.length, some ndviData.length⟩

/-- Mutable zone counters of `_identifyVegetationZones`. -/
structure ZoneCounts where
  water : ℕ
  bare_soil : ℕ
  sparse_vegetation : ℕ
  moderate_vegetation : ℕ
  dense_vegetation : ℕ
deriving DecidableEq

/-- The `forEach` body of `_identifyVegetationZones`: the if/else chain
incrementing exactly one zone counter per pixel. -/
def classifyPixel (th : Thresholds) (z : ZoneCounts) (ndvi : ℚ) : ZoneCounts :=
  if ndvi < 0 then { z with water := z.water + 1 }
  else if ndvi < th.low then { z with bare_soil := z.bare_soil + 1 }
  else if ndvi < th.normal then { z with sparse_vegetation := z.sparse_vegetation + 1 }
  else if ndvi < th.high then { z with moderate_vegetation := z.moderate_vegetation + 1 }
  else { z with dense_vegetation := z.dense_vegetation + 1 }

/-- One zone bucket: pixel count plus percentage of total pixels. -/
structure ZoneStat where
  count : ℕ
  percentage : ℚ
deriving DecidableEq

/-- The five-bucket zone histogram returned by
`_identifyVegetationZones`. -/
structure Zones where
  water : ZoneStat
  bare_soil : ZoneStat
  sparse_vegetation : ZoneStat
  moderate_vegetation : ZoneStat
  dense_vegetation : ZoneStat
deriving DecidableEq

/-- `count / totalPixels * 100` rounded via `toFixed(2)`. -/
def zonePct (count totalPixels : ℕ) : ℚ :=
  round2 ((count : ℚ) / (totalPixels : ℚ) * 100)

/-- `_identifyVegetationZones`: counts every pixel into one bucket via the
`forEach` loop, then computes each bucket's percentage of
`ndviData.length`. -/
def identifyVegetationZones (th : Thresholds) (ndviData : List ℚ) : Zones :=
  let c := ndviData.foldl (classifyPixel th) ⟨0, 0, 0, 0, 0⟩
  let totalPixels := ndviData.length
  { water := ⟨c.water, zonePct c.water totalPixels⟩
    bare_soil := ⟨c.bare_soil, zonePct c.bare_soil totalPixels⟩
    sparse_vegetation := ⟨c.sparse_vegetation, zonePct c.sparse_vegetation totalPixels⟩
    moderate_vegetation := ⟨c.moderate_vegetation, zonePct c.moderate_vegetation totalPixels⟩
    dense_vegetation := ⟨c.dense_vegetation, zonePct c.dense_vegetation totalPixels⟩ }

/-- Alert severities.  The JavaScript code uses the strings
`high`/`medium`/`low`/`info`; every alert the system emits carries one of
these four. -/
inductive Severity where
  | high
  | medium
  | low
  | info
deriving DecidableEq

/-- The `priorityOrder` table `{high: 3, medium: 2, low: 1, info: 0}` of
`_prioritizeAlerts`. -/
def severityRank : Severity → ℕ
  | .high => 3
  | .medium => 2
  | .low => 1
  | .info => 0

/-- Message bodies of the four NDVI alerts; the template strings
interpolate a numeric value, embedded here as the constructor payload. -/
inductive NdviMessage where
  | lowVeg (average : ℚ)
  | highVar (std : ℚ)
  | bareSoil (pct : ℚ)
  | healthy (average : ℚ)
deriving DecidableEq

/-- An alert object pushed by `_generateAlerts`. -/
structure NdviAlert where
  type : String
  severity : Severity
  message : NdviMessage
  recommendation : String
deriving DecidableEq

/-- The vegetation-stress alert (`LOW_VEGETATION_INDEX`). -/
def stressAlert (average : ℚ) : NdviAlert :=
  { type := "LOW_VEGETATION_INDEX", severity := .high, message := .lowVeg average,
    recommendation := "Verificar sistema de irrigação e estado nutricional das plantas." }

/-- The high-variability alert (`HIGH_VARIABILITY`). -/
def variabilityAlert (std : ℚ) : NdviAlert :=
  { type := "HIGH_VARIABILITY", severity := .medium, message := .highVar std,
    recommendation := "Investigar áreas com baixo NDVI para identificar problemas específicos." }

/-- The excessive-bare-soil alert (`EXCESSIVE_BARE_SOIL`). -/
def bareSoilAlert (pct : ℚ) : NdviAlert :=
  { type := "EXCESSIVE_BARE_SOIL", severity := .medium, message := .bareSoil pct,
    recommendation := "Avaliar cobertura vegetal e considerar replantio em áreas descobertas." }

/-- The healthy-vegetation alert (`HEALTHY_VEGETATION`). -/
def healthyAlert (average : ℚ) : NdviAlert :=
  { type := "HEALTHY_VEGETATION", severity := .info, message := .healthy average,
    recommendation := "Manter práticas atuais de manejo." }

/-- `_generateAlerts`: four independent threshold rules, each pushing one
alert; the push sequence is embedded as list concatenation in source
order. -/
def generateAlerts (th : Thresholds) (statistics : NdviStats) (zones : Zones) : List NdviAlert :=
  (if statistics.average < th.low then [stressAlert statistics.average] else [])
    ++ (if statistics.std > 1/5 then [variabilityAlert statistics.std] else [])
    ++ (if zones.bare_soil.percentage > 30 then [bareSoilAlert zones.bare_soil.percentage] else [])
    ++ (if statistics.average > th.high then [healthyAlert statistics.average] else [])

/-- `_normalizeNDVIData`: `Math.round((value + 1) * 127.5)` per pixel. -/
def normalizeNDVIData (ndviData : List ℚ) : List ℤ :=
  ndviData.map (fun value => round ((value + 1) * (255/2)))

/-- The object returned by `calculateNDVI`; `timestamp` records the
ambient clock value at invocation time (`new Date()`), threaded through as
an explicit parameter. -/
structure NDVIResult where
  timestamp : ℕ
  width : ℕ
  height : ℕ
  statistics : NdviStats
  zones : Zones
  alerts : List NdviAlert
  ndviData : List ℤ
deriving DecidableEq

/-- The message of the dimension-mismatch exception thrown by
`calculateNDVI`. -/
def dimensionMismatchMsg : String := "Dimensões das bandas NIR e Red não coincidem"

/-- `calculateNDVI`: checks band-dimension compatibility, computes the
per-pixel index, statistics, zone histogram and alerts, and assembles the
result.  The thrown JavaScript `Error` is embedded as `Except.error`; `t`
is the ambient clock. -/
def calculateNDVI (t : ℕ) (th : Thresholds) (nirBand redBand : BandRaster) :
    Except String NDVIResult :=
  if nirBand.width ≠ redBand.width ∨ nirBand.height ≠ redBand.height then
    .error dimensionMismatchMsg
  else
    let ndviData := computeNDVIPixels nirBand.data redBand.data
    let statistics := calculateStatistics ndviData
    let zones := identifyVegetationZones th ndviData
    let alerts := generateAlerts th statistics zones
    .ok { timestamp := t, width := nirBand.width, height := nirBand.height,
          statistics := statistics, zones := zones, alerts := alerts,
          ndviData := normalizeNDVIData ndviData }

/-- Projection of an analysis outcome onto the timestamp field. -/
def resultTimestamp : Except String NDVIResult → Option ℕ
  | .ok r => some r.timestamp
  | .error _ => none

/-- Everything in an `NDVIResult` except the clock-dependent
`timestamp`. -/
structure ResultCore where
  width : ℕ
  height : ℕ
  statistics : NdviStats
  zones : Zones
  alerts : List NdviAlert
  ndviData : List ℤ
deriving DecidableEq

/-- Forgets the timestamp of an `NDVIResult`. -/
def resultCore (r : NDVIResult) : ResultCore :=
  ⟨r.width, r.height, r.statistics, r.zones, r.alerts, r.ndviData⟩

/-- Concrete 1×2 NIR band used as a witness input. -/
def rasterA : BandRaster :=
  ⟨1, 2, [10, 250], by decide, by decide⟩

/-- Concrete 1×2 red band used as a witness input. -/
def rasterB : BandRaster :=
  ⟨1, 2, [200, 0], by decide, by decide⟩

/-- Concrete 1×1 band whose dimensions differ from `rasterA`. -/
def rasterC : BandRaster :=
  ⟨1, 1, [42], by decide, by decide⟩

/-- Total number of pixels counted into the five zone buckets. -/
def ZoneCounts.total (z : ZoneCounts) : ℕ :=
  z.water + z.bare_soil + z.sparse_vegetation + z.moderate_vegetation + z.dense_vegetation

/-- Concrete statistics record used as a witness input for the alert
rules. -/
def statsW : NdviStats := ⟨1/10, 0, 3/10, 3/10, some 4, some 4⟩

/-- Concrete zone histogram used as a witness input for the alert
rules. -/
def zonesW : Zones := ⟨⟨0, 0⟩, ⟨2, 40⟩, ⟨1, 20⟩, ⟨1, 20⟩, ⟨1, 20⟩⟩

/-- Farm record (`farmInfo`) as consumed by `FarmAlertService` and the
daily cron: identity, crop type and notification recipients. -/
structure Farm where
  id : ℕ
  name : String
  cropType : String
  ownerPhone : Option String
  technicalContacts : List String
deriving DecidableEq

/-- Free-text message body of a unified alert: either an NDVI template
message or a vision-finding description. -/
inductive MsgBody where
  | ofNdvi (m : NdviMessage)
  | text (s : String)
deriving DecidableEq

/-- The unified alert shape built by `FarmAlertService` (`_processNDVIAlerts`
and `_processClaudeAlerts`).  The `data` metadata payload of the
JavaScript object (a snapshot of statistics/zones/findings) is not
modelled; no aggregation decision reads it. -/
structure FarmAlert where
  farmId : ℕ
  type : String
  severity : Severity
  title : String
  message : MsgBody
  recommendation : Option String
  source : String
  timestamp : ℕ
deriving DecidableEq

/-- `_generateAlertTitle`: the `titles` lookup table with its
crop-type-interpolating entry and `Alerta - ${alertType}` fallback. -/
def generateAlertTitle (alertType cropType : String) : String :=
  if alertType = "LOW_VEGETATION_INDEX" then "Baixo Vigor Vegetativo - " ++ cropType
  else if alertType = "HIGH_VARIABILITY" then "Desuniformidade na Cultura"
  else if alertType = "EXCESSIVE_BARE_SOIL" then "Solo Exposto Detectado"
  else if alertType = "VEGETATION_STRESS" then "Estresse Vegetal Identificado"
  else if alertType = "IRRIGATION_NEEDED" then "Necessidade de Irrigação"
  else if alertType = "PEST_DISEASE_RISK" then "Risco de Pragas/Doenças"
  else if alertType = "HEALTHY_VEGETATION" then "Cultura Saudável"
  else "Alerta - " ++ alertType

/-- `_processNDVIAlerts`: maps every NDVI-derived alert of the analysis
into the unified alert shape for the given farm; `t` is the ambient clock
(`new Date()`).  A missing `ndviAnalysis?.alerts` is the empty list. -/
def processNDVIAlerts (t : ℕ) (farmInfo : Farm) (ndviAlerts : List NdviAlert) :
    List FarmAlert :=
  ndviAlerts.map (fun a =>
    { farmId := farmInfo.id, type := a.type, severity := a.severity,
      title := generateAlertTitle a.type farmInfo.cropType,
      message := MsgBody.ofNdvi a.message, recommendation := some a.recommendation,
      source := "ndvi_analysis", timestamp := t })

/-- A structured finding of the external vision analysis. -/
structure VisionFinding where
  type : Option String
  severity : String
  description : String
deriving DecidableEq

/-- The vision-analysis payload consumed by `_processClaudeAlerts`:
`findings` is `none` when `claudeAnalysis?.analysis?.findings` is absent
(the whole mapping then yields no alerts, including the risk alert). -/
structure ClaudeAnalysis where
  findings : Option (List VisionFinding)
  overallRisk : Option String
  summary : Option String
deriving DecidableEq

/-- `_mapClaudeSeverity`: the explicit severity mapping table with
`medium` as the fallback for unrecognised values. -/
def mapClaudeSeverity (claudeSeverity : String) : Severity :=
  if claudeSeverity = "critical" then .high
  else if claudeSeverity = "high" then .high
  else if claudeSeverity = "medium" then .medium
  else if claudeSeverity = "low" then .low
  else if claudeSeverity = "info" then .info
  else .medium

/-- `_processClaudeAlerts`: maps each finding into the unified alert
shape and appends one `HIGH_RISK_IDENTIFIED` alert when the overall risk
is `high`.  The free-text recommendation lookup
(`_extractRecommendationForFinding`, a lowercase substring search over
the provider's recommendation list) is abstracted as the
`recommendationFor` parameter. -/
def processClaudeAlerts (t : ℕ) (farmInfo : Farm) (claude : ClaudeAnalysis)
    (recommendationFor : VisionFinding → Option String) : List FarmAlert :=
  match claude.findings with
  | none => []
  | some findings =>
    let findingAlerts := findings.map (fun f =>
      { farmId := farmInfo.id, type := f.type.getD ("GENERAL_OBSERVATION"),
        severity := mapClaudeSeverity f.severity,
        title := "Observação IA: " ++ f.type.getD ("Análise Geral"),
        message := MsgBody.text f.description,
        recommendation := recommendationFor f,
        source := "claude_vision", timestamp := t })
    let riskAlerts :=
      if claude.overallRisk = some "high" then
        [{ farmId := farmInfo.id, type := "HIGH_RISK_IDENTIFIED",
           severity := Severity.high,
           title := "Alto Risco Identificado pela IA",
           message := MsgBody.text ((claude.summary).getD
             ("A análise de IA identificou condições de alto risco na fazenda.")),
           recommendation := some ("Ação imediata recomendada. Consulte as recomendações específicas."),
           source := "claude_vision", timestamp := t }]
      else []
    findingAlerts ++ riskAlerts

/-- The emission order of `processAnalysisAlerts`:
`alerts.push(...ndviAlerts, ...claudeAlerts)` — index-derived alerts
first, then vision-derived. -/
def processAnalysisAlertsList (t : ℕ) (farmInfo : Farm) (ndviAlerts : List NdviAlert)
    (claude : ClaudeAnalysis) (recommendationFor : VisionFinding → Option String) :
    List FarmAlert :=
  processNDVIAlerts t farmInfo ndviAlerts
    ++ processClaudeAlerts t farmInfo claude recommendationFor

/-- The dedup key `` `${alert.type}-${alert.severity}` `` of
`_removeDuplicateAlerts`, embedded as the pair. -/
def dedupKey (a : FarmAlert) : String × Severity := (a.type, a.severity)

/-- The `seen`-set loop of `_removeDuplicateAlerts`: keeps an alert iff
its key has not been seen, in input order. -/
def removeDuplicateAlertsGo (seen : List (String × Severity)) :
    List FarmAlert → List FarmAlert
  | [] => []
  | a :: rest =>
    if dedupKey a ∈ seen then removeDuplicateAlertsGo seen rest
    else a :: removeDuplicateAlertsGo (dedupKey a :: seen) rest

/-- `_removeDuplicateAlerts` with the initially empty `seen` set. -/
def removeDuplicateAlerts (alerts : List FarmAlert) : List FarmAlert :=
  removeDuplicateAlertsGo [] alerts

/-- Stable insertion used to embed the JavaScript stable
`Array.prototype.sort` under the comparator
`(a, b) => priorityOrder[b.severity] - priorityOrder[a.severity]`. -/
def insertDesc (a : FarmAlert) : List FarmAlert → List FarmAlert
  | [] => [a]
  | b :: rest =>
    if severityRank b.severity ≤ severityRank a.severity then a :: b :: rest
    else b :: insertDesc a rest

/-- Stable descending-by-rank sort (the ECMAScript specification
guarantees `sort` is stable). -/
def sortByPriorityDesc (alerts : List FarmAlert) : List FarmAlert :=
  alerts.foldr insertDesc []

/-- `_prioritizeAlerts`: deduplicate, then sort descending by severity
rank. -/
def prioritizeAlerts (alerts : List FarmAlert) : List FarmAlert :=
  sortByPriorityDesc (removeDuplicateAlerts alerts)

/-- `_saveAlerts`: one `INSERT` per alert in order; an insert failure is
caught and logged and the alert skipped, so the persisted list is the
subset of alerts whose insert succeeded (`insertOk`). -/
def saveAlerts (insertOk : FarmAlert → Bool) (alerts : List FarmAlert) : List FarmAlert :=
  alerts.filter insertOk

/-- Outcome of the WhatsApp notification decision of
`_sendWhatsAppAlerts`/`_sendPositiveUpdate`. -/
inductive WhatsNotification where
  | urgentMsg (shown : List FarmAlert) (extraCount : ℕ)
  | positiveMsg (healthy : FarmAlert)
  | nothing
deriving DecidableEq

/-- `_sendPositiveUpdate`: sends the positive message iff an alert of
type `HEALTHY_CROP` exists and the farm has an owner phone. -/
def sendPositiveUpdate (farmInfo : Farm) (alerts : List FarmAlert) : WhatsNotification :=
  let healthyAlerts := alerts.filter (fun a => a.type = "HEALTHY_CROP")
  match healthyAlerts, farmInfo.ownerPhone with
  | h :: _, some _ => WhatsNotification.positiveMsg h
  | _, _ => WhatsNotification.nothing

/-- `_sendWhatsAppAlerts`: filters the high-severity alerts (excluding
type `HEALTHY_CROP`); if none remain, falls back to the positive update,
otherwise builds the urgent message from the first three urgent alerts
(`alerts.slice(0, 3)`) plus the count of the remaining ones. -/
def sendWhatsAppAlerts (farmInfo : Farm) (alerts : List FarmAlert) : WhatsNotification :=
  let urgentAlerts :=
    alerts.filter (fun a => a.severity = Severity.high ∧ a.type ≠ "HEALTHY_CROP")
  if urgentAlerts.isEmpty then sendPositiveUpdate farmInfo alerts
  else WhatsNotification.urgentMsg (urgentAlerts.take 3) (urgentAlerts.length - 3)

/-- `this.statistics` of `DailyAnalysisJob`. -/
structure RunStatistics where
  totalFarms : ℕ
  successfulAnalyses : ℕ
  failedAnalyses : ℕ
  alertsGenerated : ℕ
deriving DecidableEq

/-- The mutable instance state of `DailyAnalysisJob`:
`isRunning`, `lastExecution` and the run statistics. -/
structure JobState where
  isRunning : Bool
  lastExecution : Option ℕ
  statistics : RunStatistics
deriving DecidableEq

/-- Outcome of one `_analyzeFarmDaily` task: skipped (recent analysis or
no fresh image), success with its alert count, or a caught exception. -/
inductive FarmOutcome where
  | skipped
  | success (alertCount : ℕ)
  | failure (message : String)
deriving DecidableEq

/-- The external world of one run: the clock, the result of the farm
listing query, each farm task's outcome, and whether admin WhatsApp
contacts are configured. -/
structure RunEnv where
  now : ℕ
  farmsQuery : Except String (List Farm)
  outcome : Farm → FarmOutcome
  adminContactsConfigured : Bool

/-- The daily report assembled by `_generateDailyReport` (the
`toFixed(2)` success-rate string embedded as the rounded rational; the
calendar-date string abstracted as the clock value). -/
structure DailyReport where
  date : ℕ
  statistics : RunStatistics
  successRate : ℚ
deriving DecidableEq

/-- Observable outcome of one `runDailySatelliteAnalysis` call:
final instance state, the farms for which an analysis task was launched,
warnings logged, the persisted report (if any), and whether
`_notifyAdminsError` dispatched an admin failure notification. -/
structure RunResult where
  finalState : JobState
  launchedFarms : List Farm
  warnings : List String
  report : Option DailyReport
  adminErrorNotified : Bool
deriving DecidableEq

/-- The reset value of the statistics object. -/
def initialStatistics : RunStatistics := ⟨0, 0, 0, 0⟩

/-- `_getActiveFarms`: the `catch` block logs the query error and
returns the empty list. -/
def getActiveFarms : Except String (List Farm) → List Farm
  | .ok farms => farms
  | .error _ => []

/-- Folds one farm-task outcome into the statistics exactly as
`_analyzeFarmDaily` mutates them: success increments
`successfulAnalyses` and adds the alert count; a caught exception
increments `failedAnalyses`; a skip changes nothing. -/
def applyOutcome (st : RunStatistics) : FarmOutcome → RunStatistics
  | .skipped => st
  | .success alertCount =>
      { st with
          successfulAnalyses := st.successfulAnalyses + 1
          alertsGenerated := st.alertsGenerated + alertCount }
  | .failure _ => { st with failedAnalyses := st.failedAnalyses + 1 }

/-- `_generateDailyReport`'s report record. -/
def mkDailyReport (now : ℕ) (st : RunStatistics) : DailyReport :=
  ⟨now, st,
    if 0 < st.totalFarms then
      round2 ((st.successfulAnalyses : ℚ) / (st.totalFarms : ℚ) * 100)
    else 0⟩

/-- The reentrancy warning logged by `runDailySatelliteAnalysis`. -/
def reentryWarning : String := "Análise diária já está em execução, pulando..."

/-- `runDailySatelliteAnalysis`: the guarded daily run.  If a run is in
progress it returns immediately after logging a warning.  Otherwise it
sets `isRunning`/`lastExecution`, resets the statistics, lists the
active farms (a listing failure having been caught inside
`_getActiveFarms` and turned into the empty list), returns early on an
empty list, and otherwise processes every farm (the batch loop of size 5
with 30 s pauses only paces the work: `Promise.allSettled` awaits every
task of a batch and counter updates commute, so the statistics are the
fold of all outcomes) and persists the report.  Every inner step catches
its own errors, so the outer `catch` that would call
`_notifyAdminsError` is never reached on a listing failure;
`adminErrorNotified` is therefore `false`. -/
def runDailySatelliteAnalysis (s : JobState) (env : RunEnv) : RunResult :=
  if s.isRunning then
    { finalState := s, launchedFarms := [], warnings := [reentryWarning],
      report := none, adminErrorNotified := false }
  else
    let farms := getActiveFarms env.farmsQuery
    let stats0 : RunStatistics := { initialStatistics with totalFarms := farms.length }
    if farms.isEmpty then
      { finalState := ⟨false, some env.now, stats0⟩, launchedFarms := [],
        warnings := [], report := none, adminErrorNotified := false }
    else
      let finalStats := farms.foldl (fun st f => applyOutcome st (env.outcome f)) stats0
      { finalState := ⟨false, some env.now, finalStats⟩, launchedFarms := farms,
        warnings := [], report := some (mkDailyReport env.now finalStats),
        adminErrorNotified := false }

/-- Concrete farm used in witnesses and counterexamples. -/
def farmW : Farm := ⟨1, "Fazenda Boa Vista", "soja", some ("+5511999999999"), []⟩

/-- Vision analysis with no findings and no risk flag. -/
def claudeEmptyAnalysis : ClaudeAnalysis := ⟨some [], none, none⟩

/-- Vision analysis producing one critical finding that duplicates the
NDVI stress alert's (type, severity) key. -/
def claudeW : ClaudeAnalysis :=
  ⟨some [⟨some ("LOW_VEGETATION_INDEX"), "critical", "Estresse detectado pela IA"⟩],
    none, none⟩

/-- Trivial recommendation resolver. -/
def noRecommendation : VisionFinding → Option String := fun _ => none

/-- Statistics of a healthy analysis (mean above the default high
threshold, low variability). -/
def statsHealthy : NdviStats := ⟨4/5, 3/4, 9/10, 1/10, some 4, some 4⟩

/-- Zones of a healthy analysis (no bare soil). -/
def zonesCalm : Zones := ⟨⟨0, 0⟩, ⟨0, 0⟩, ⟨0, 0⟩, ⟨1, 25⟩, ⟨3, 75⟩⟩

/-- The unified alert that the NDVI healthy alert maps to. -/
def healthyFarmAlertW : FarmAlert :=
  { farmId := farmW.id, type := "HEALTHY_VEGETATION", severity := Severity.info,
    title := generateAlertTitle "HEALTHY_VEGETATION" farmW.cropType,
    message := MsgBody.ofNdvi (NdviMessage.healthy (4/5)),
    recommendation := some ("Manter práticas atuais de manejo."),
    source := "ndvi_analysis", timestamp := 0 }

/-- An idle orchestrator state. -/
def idleState : JobState := ⟨false, none, initialStatistics⟩

/-- An orchestrator state captured mid-run, with nonzero statistics. -/
def runningState : JobState := ⟨true, some 5, ⟨7, 3, 2, 11⟩⟩

/-- Environment whose farm-listing query fails although admin contacts
are configured. -/
def envListingError : RunEnv := ⟨0, .error ("db down"), fun _ => .skipped, true⟩

/-- Environment whose farm listing succeeds with an empty list. -/
def envEmptyListing : RunEnv := ⟨0, .ok [], fun _ => .skipped, true⟩

/-- Environment with one farm whose analysis succeeds. -/
def envW : RunEnv := ⟨0, .ok [farmW], fun _ => .success 2, false⟩

/-- One NDVI stress alert, used as a witness input whose (type, severity)
key duplicates a vision finding's. -/
def ndviW : List NdviAlert := [stressAlert (1/10)]

end AgroIA

namespace AgroIA

/-! ### Helper lemmas about rounding, `sqrtQ` and the pixel formula -/

theorem roundQ_mono {a b : ℚ} (h : a ≤ b) : round a ≤ round b := by
  rw [round_eq, round_eq]
  exact Int.floor_le_floor (by linarith)

theorem round4_mono {a b : ℚ} (h : a ≤ b) : round4 a ≤ round4 b := by
  unfold round4
  have h1 : round (a * 10000) ≤ round (b * 10000) := roundQ_mono (by nlinarith)
  have h2 : ((round (a * 10000) : ℤ) : ℚ) ≤ ((round (b * 10000) : ℤ) : ℚ) := by exact_mod_cast h1
  linarith

theorem round4_zero : round4 0 = 0 := by
  unfold round4
  norm_num

theorem round4_nonneg {a : ℚ} (h : 0 ≤ a) : 0 ≤ round4 a := by
  have := round4_mono h
  rwa [round4_zero] at this

theorem round2_abs_le (q : ℚ) : |round2 q - q| ≤ 1 / 200 := by
  have h := abs_sub_round (q * 100)
  have h100 : (0 : ℚ) < 100 := by norm_num
  have heq : round2 q - q = -((q * 100 - ((round (q * 100) : ℤ) : ℚ)) / 100) := by
    unfold round2
    field_simp
    ring
  rw [heq, abs_neg, abs_div, abs_of_pos h100]
  linarith

theorem sqrtQ_nonneg (q : ℚ) : 0 ≤ sqrtQ q := by
  unfold sqrtQ
  apply div_nonneg
  · exact_mod_cast Int.ofNat_nonneg _
  · exact_mod_cast Int.ofNat_nonneg _

theorem ndviPixel_bound (a b : ℕ) : -1 ≤ ndviPixel a b ∧ ndviPixel a b ≤ 1 := by
  unfold ndviPixel
  simp only []
  have hn : (0 : ℚ) ≤ (a : ℚ) / 255 := by positivity
  have hr : (0 : ℚ) ≤ (b : ℚ) / 255 := by positivity
  split
  · rename_i hne
    have hpos : 0 < (a : ℚ) / 255 + (b : ℚ) / 255 := lt_of_le_of_ne (by linarith) (Ne.symm hne)
    constructor
    · rw [le_div_iff₀ hpos]
      linarith
    · rw [div_le_one hpos]
      linarith
  · norm_num

theorem ndviPixel_zero_denom (a b : ℕ) (h : (a : ℚ) / 255 + (b : ℚ) / 255 = 0) :
    ndviPixel a b = 0 := by
  unfold ndviPixel
  simp [h]

theorem computeNDVIPixels_bound :
    ∀ (l₁ l₂ : List ℕ), ∀ v ∈ computeNDVIPixels l₁ l₂, -1 ≤ v ∧ v ≤ 1 := by
  intro l₁
  induction l₁ with
  | nil => intro l₂ v hv; simp [computeNDVIPixels] at hv
  | cons a rest ih =>
    intro l₂ v hv
    cases l₂ with
    | nil => simp [computeNDVIPixels] at hv
    | cons b rest₂ =>
      simp only [computeNDVIPixels, List.zipWith_cons_cons, List.mem_cons] at hv
      rcases hv with h | h
      · subst h; exact ndviPixel_bound a b
      · exact ih rest₂ v h

theorem byteNorm_mem_unit {x : ℕ} (h : x ≤ 255) :
    0 ≤ (x : ℚ) / 255 ∧ (x : ℚ) / 255 ≤ 1 := by
  constructor
  · positivity
  · rw [div_le_one (by norm_num)]
    exact_mod_cast h

/-! ### C1 and C2 -/

/-- C1: for every pair of equal-dimension band rasters, `calculateNDVI`
succeeds; each raw sample is normalised to [0,1]; a zero denominator maps
to index 0; and every computed per-pixel index lies in [-1,1] (finiteness
is automatic in the exact rational embedding). -/
theorem c1_pixel_index_bounds (t : ℕ) (th : Thresholds) (nirBand redBand : BandRaster)
    (hw : nirBand.width = redBand.width) (hh : nirBand.height = redBand.height) :
    (∃ res, calculateNDVI t th nirBand redBand = .ok res)
    ∧ (∀ a ∈ nirBand.data, 0 ≤ (a : ℚ) / 255 ∧ (a : ℚ) / 255 ≤ 1)
    ∧ (∀ b ∈ redBand.data, 0 ≤ (b : ℚ) / 255 ∧ (b : ℚ) / 255 ≤ 1)
    ∧ (∀ a b : ℕ, (a : ℚ) / 255 + (b : ℚ) / 255 = 0 → ndviPixel a b = 0)
    ∧ (∀ v ∈ computeNDVIPixels nirBand.data redBand.data, -1 ≤ v ∧ v ≤ 1) := by
  refine ⟨?_, ?_, ?_, ?_, ?_⟩
  · unfold calculateNDVI
    rw [if_neg (by push_neg; exact ⟨hw, hh⟩)]
    exact ⟨_, rfl⟩
  · intro a ha; exact byteNorm_mem_unit (nirBand.bytes a ha)
  · intro b hb; exact byteNorm_mem_unit (redBand.bytes b hb)
  · exact ndviPixel_zero_denom
  · exact computeNDVIPixels_bound nirBand.data redBand.data

/-- Witness for C1 at the concrete band pair `rasterA`/`rasterB`: the
first computed pixel of the pair is within [-1,1]. -/
theorem c1_witness :
    -1 ≤ ndviPixel 10 200 ∧ ndviPixel 10 200 ≤ 1 :=
  (c1_pixel_index_bounds 0 defaultThresholds rasterA rasterB rfl rfl).2.2.2.2
    (ndviPixel 10 200) (List.mem_cons_self _ _)

/-- C2: whenever the two bands differ in width or height, `calculateNDVI`
fails with the dimension-mismatch error and returns no result at all. -/
theorem c2_dimension_mismatch (t : ℕ) (th : Thresholds) (nirBand redBand : BandRaster)
    (h : nirBand.width ≠ redBand.width ∨ nirBand.height ≠ redBand.height) :
    calculateNDVI t th nirBand redBand = .error dimensionMismatchMsg
    ∧ ∀ res, calculateNDVI t th nirBand redBand ≠ .ok res := by
  have he : calculateNDVI t th nirBand redBand = .error dimensionMismatchMsg := by
    unfold calculateNDVI
    rw [if_pos h]
  exact ⟨he, fun res hres => by rw [he] at hres; exact Except.noConfusion hres⟩

/-- Witness for C2 at the concrete mismatched pair `rasterA`/`rasterC`. -/
theorem c2_witness :
    calculateNDVI 0 defaultThresholds rasterA rasterC = .error dimensionMismatchMsg
    ∧ ∀ res, calculateNDVI 0 defaultThresholds rasterA rasterC ≠ .ok res :=
  c2_dimension_mismatch 0 defaultThresholds rasterA rasterC (by right; decide)

/-! ### Zone-classification lemmas -/

theorem classifyPixel_water (th : Thresholds) (z : ZoneCounts) (v : ℚ) :
    (classifyPixel th z v).water = z.water + (if v < 0 then 1 else 0) := by
  unfold classifyPixel
  split_ifs <;> simp

theorem classifyPixel_bare (th : Thresholds) (z : ZoneCounts) (v : ℚ) :
    (classifyPixel th z v).bare_soil
      = z.bare_soil + (if ¬ v < 0 ∧ v < th.low then 1 else 0) := by
  unfold classifyPixel
  split_ifs <;> simp_all

theorem classifyPixel_sparse (th : Thresholds) (z : ZoneCounts) (v : ℚ) :
    (classifyPixel th z v).sparse_vegetation
      = z.sparse_vegetation + (if ¬ v < 0 ∧ ¬ v < th.low ∧ v < th.normal then 1 else 0) := by
  unfold classifyPixel
  split_ifs <;> simp_all

theorem classifyPixel_moderate (th : Thresholds) (z : ZoneCounts) (v : ℚ) :
    (classifyPixel th z v).moderate_vegetation
      = z.moderate_vegetation
        + (if ¬ v < 0 ∧ ¬ v < th.low ∧ ¬ v < th.normal ∧ v < th.high then 1 else 0) := by
  unfold classifyPixel
  split_ifs <;> simp_all

theorem classifyPixel_dense (th : Thresholds) (z : ZoneCounts) (v : ℚ) :
    (classifyPixel th z v).dense_vegetation
      = z.dense_vegetation
        + (if ¬ v < 0 ∧ ¬ v < th.low ∧ ¬ v < th.normal ∧ ¬ v < th.high then 1 else 0) := by
  unfold classifyPixel
  split_ifs <;> simp_all

theorem classifyPixel_total (th : Thresholds) (z : ZoneCounts) (v : ℚ) :
    (classifyPixel th z v).total = z.total + 1 := by
  unfold classifyPixel ZoneCounts.total
  split_ifs <;> simp <;> omega

theorem foldl_classify_total (th : Thresholds) (d : List ℚ) :
    ∀ z : ZoneCounts, (d.foldl (classifyPixel th) z).total = z.total + d.length := by
  induction d with
  | nil => intro z; simp
  | cons v rest ih =>
    intro z
    rw [List.foldl_cons, ih, classifyPixel_total, List.length_cons]
    omega

theorem foldl_classify_count (th : Thresholds) (proj : ZoneCounts → ℕ) (p : ℚ → Prop)
    [DecidablePred p]
    (hstep : ∀ z v, proj (classifyPixel th z v) = proj z + (if p v then 1 else 0))
    (d : List ℚ) :
    ∀ z : ZoneCounts,
      proj (d.foldl (classifyPixel th) z) = proj z + d.countP (fun v => decide (p v)) := by
  induction d with
  | nil => intro z; simp
  | cons v rest ih =>
    intro z
    rw [List.foldl_cons, ih, hstep, List.countP_cons]
    by_cases h : p v <;> (simp [h]; try omega)

theorem abs_add₅ (a b c d e : ℚ) : |a + b + c + d + e| ≤ |a| + |b| + |c| + |d| + |e| := by
  have q1 := abs_add (a + b + c + d) e
  have q2 := abs_add (a + b + c) d
  have q3 := abs_add (a + b) c
  have q4 := abs_add a b
  linarith

theorem sum_round2_pct (c₁ c₂ c₃ c₄ c₅ T : ℕ) (hT : T ≠ 0)
    (hsum : c₁ + c₂ + c₃ + c₄ + c₅ = T) :
    |zonePct c₁ T + zonePct c₂ T + zonePct c₃ T + zonePct c₄ T + zonePct c₅ T - 100|
      ≤ 1 / 40 := by
  have hTQ : ((T : ℚ)) ≠ 0 := Nat.cast_ne_zero.mpr hT
  have hb : ∀ c : ℕ, |zonePct c T - (c : ℚ) / (T : ℚ) * 100| ≤ 1 / 200 :=
    fun c => round2_abs_le _
  have hc : ((c₁ : ℚ) + c₂ + c₃ + c₄ + c₅) = (T : ℚ) := by exact_mod_cast hsum
  have hsQ : (c₁ : ℚ) / (T : ℚ) * 100 + (c₂ : ℚ) / (T : ℚ) * 100 + (c₃ : ℚ) / (T : ℚ) * 100
      + (c₄ : ℚ) / (T : ℚ) * 100 + (c₅ : ℚ) / (T : ℚ) * 100 = 100 := by
    field_simp
    linear_combination 100 * hc
  have key : zonePct c₁ T + zonePct c₂ T + zonePct c₃ T + zonePct c₄ T + zonePct c₅ T - 100
      = (zonePct c₁ T - (c₁ : ℚ) / (T : ℚ) * 100) + (zonePct c₂ T - (c₂ : ℚ) / (T : ℚ) * 100)
        + (zonePct c₃ T - (c₃ : ℚ) / (T : ℚ) * 100) + (zonePct c₄ T - (c₄ : ℚ) / (T : ℚ) * 100)
        + (zonePct c₅ T - (c₅ : ℚ) / (T : ℚ) * 100) := by
    linear_combination hsQ
  rw [key]
  refine le_trans (abs_add₅ _ _ _ _ _) ?_
  linarith [hb c₁, hb c₂, hb c₃, hb c₄, hb c₅]

theorem identifyVegetationZones_components (th : Thresholds) (d : List ℚ) :
    (identifyVegetationZones th d).water
        = ⟨(d.foldl (classifyPixel th) ⟨0, 0, 0, 0, 0⟩).water,
            zonePct (d.foldl (classifyPixel th) ⟨0, 0, 0, 0, 0⟩).water d.length⟩
    ∧ (identifyVegetationZones th d).bare_soil
        = ⟨(d.foldl (classifyPixel th) ⟨0, 0, 0, 0, 0⟩).bare_soil,
            zonePct (d.foldl (classifyPixel th) ⟨0, 0, 0, 0, 0⟩).bare_soil d.length⟩
    ∧ (identifyVegetationZones th d).sparse_vegetation
        = ⟨(d.foldl (classifyPixel th) ⟨0, 0, 0, 0, 0⟩).sparse_vegetation,
            zonePct (d.foldl (classifyPixel th) ⟨0, 0, 0, 0, 0⟩).sparse_vegetation d.length⟩
    ∧ (identifyVegetationZones th d).moderate_vegetation
        = ⟨(d.foldl (classifyPixel th) ⟨0, 0, 0, 0, 0⟩).moderate_vegetation,
            zonePct (d.foldl (classifyPixel th) ⟨0, 0, 0, 0, 0⟩).moderate_vegetation d.length⟩
    ∧ (identifyVegetationZones th d).dense_vegetation
        = ⟨(d.foldl (classifyPixel th) ⟨0, 0, 0, 0, 0⟩).dense_vegetation,
            zonePct (d.foldl (classifyPixel th) ⟨0, 0, 0, 0, 0⟩).dense_vegetation d.length⟩ :=
  ⟨rfl, rfl, rfl, rfl, rfl⟩

/-! ### C3 -/

/-- C3: for an index result with at least one pixel (all computed pixels
being valid), the zone counters classify every pixel into exactly one of
the five threshold buckets, every computed pixel passes the validity
filter, each zone's percentage is its count over the valid-pixel count
times 100 (rounded to two decimals), and the five percentages sum to 100
within the rounding tolerance. -/
theorem c3_zone_histogram (th : Thresholds)
    (h0 : 0 ≤ th.low) (h1 : th.low ≤ th.normal) (h2 : th.normal ≤ th.high)
    (nirBand redBand : BandRaster)
    (hw : nirBand.width = redBand.width) (hh : nirBand.height = redBand.height)
    (hne : nirBand.data ≠ [])
    (d : List ℚ) (hd : d = computeNDVIPixels nirBand.data redBand.data)
    (z : Zones) (hz : z = identifyVegetationZones th d) :
    z.water.count + z.bare_soil.count + z.sparse_vegetation.count
        + z.moderate_vegetation.count + z.dense_vegetation.count = d.length
    ∧ z.water.count = d.countP (fun v => decide (v < 0))
    ∧ z.bare_soil.count = d.countP (fun v => decide (0 ≤ v ∧ v < th.low))
    ∧ z.sparse_vegetation.count = d.countP (fun v => decide (th.low ≤ v ∧ v < th.normal))
    ∧ z.moderate_vegetation.count = d.countP (fun v => decide (th.normal ≤ v ∧ v < th.high))
    ∧ z.dense_vegetation.count = d.countP (fun v => decide (th.high ≤ v))
    ∧ validFilter d = d
    ∧ z.water.percentage
        = round2 ((z.water.count : ℚ) / ((validFilter d).length : ℚ) * 100)
    ∧ z.bare_soil.percentage
        = round2 ((z.bare_soil.count : ℚ) / ((validFilter d).length : ℚ) * 100)
    ∧ z.sparse_vegetation.percentage
        = round2 ((z.sparse_vegetation.count : ℚ) / ((validFilter d).length : ℚ) * 100)
    ∧ z.moderate_vegetation.percentage
        = round2 ((z.moderate_vegetation.count : ℚ) / ((validFilter d).length : ℚ) * 100)
    ∧ z.dense_vegetation.percentage
        = round2 ((z.dense_vegetation.count : ℚ) / ((validFilter d).length : ℚ) * 100)
    ∧ |z.water.percentage + z.bare_soil.percentage + z.sparse_vegetation.percentage
        + z.moderate_vegetation.percentage + z.dense_vegetation.percentage - 100| ≤ 1 / 40 := by
  obtain ⟨hcw, hcb, hcs, hcm, hcd⟩ := identifyVegetationZones_components th d
  have hval : validFilter d = d := by
    rw [hd]
    unfold validFilter
    refine List.filter_eq_self.mpr ?_
    intro a ha
    have hb := computeNDVIPixels_bound nirBand.data redBand.data a ha
    simpa using hb
  have hlen : d.length = nirBand.data.length := by
    rw [hd]
    unfold computeNDVIPixels
    rw [List.length_zipWith]
    have : redBand.data.length = nirBand.data.length := by
      rw [nirBand.size_eq, redBand.size_eq, hw, hh]
    simp [this]
  have hTne : d.length ≠ 0 := by
    rw [hlen]
    intro hcon
    exact hne (List.length_eq_zero.mp hcon)
  -- per-bucket counts
  have hwat : z.water.count = d.countP (fun v => decide (v < 0)) := by
    rw [hz, hcw]
    simpa using
      foldl_classify_count th ZoneCounts.water (fun v => v < 0)
        (classifyPixel_water th) d ⟨0, 0, 0, 0, 0⟩
  have hbar : z.bare_soil.count = d.countP (fun v => decide (0 ≤ v ∧ v < th.low)) := by
    rw [hz, hcb]
    have hcount := foldl_classify_count th ZoneCounts.bare_soil
        (fun v => ¬ v < 0 ∧ v < th.low) (classifyPixel_bare th) d ⟨0, 0, 0, 0, 0⟩
    simp only [hcount]
    refine Nat.zero_add _ ▸ List.countP_congr ?_
    intro x _
    simp [not_lt]
  have hspa : z.sparse_vegetation.count
      = d.countP (fun v => decide (th.low ≤ v ∧ v < th.normal)) := by
    rw [hz, hcs]
    have hcount := foldl_classify_count th ZoneCounts.sparse_vegetation
        (fun v => ¬ v < 0 ∧ ¬ v < th.low ∧ v < th.normal)
        (classifyPixel_sparse th) d ⟨0, 0, 0, 0, 0⟩
    simp only [hcount]
    refine Nat.zero_add _ ▸ List.countP_congr ?_
    intro x _
    simp only [decide_eq_true_eq, not_lt]
    constructor
    · rintro ⟨_, hb2, hb3⟩
      exact ⟨hb2, hb3⟩
    · rintro ⟨ha2, hb2⟩
      exact ⟨le_trans h0 ha2, ha2, hb2⟩
  have hmod : z.moderate_vegetation.count
      = d.countP (fun v => decide (th.normal ≤ v ∧ v < th.high)) := by
    rw [hz, hcm]
    have hcount := foldl_classify_count th ZoneCounts.moderate_vegetation
        (fun v => ¬ v < 0 ∧ ¬ v < th.low ∧ ¬ v < th.normal ∧ v < th.high)
        (classifyPixel_moderate th) d ⟨0, 0, 0, 0, 0⟩
    simp only [hcount]
    refine Nat.zero_add _ ▸ List.countP_congr ?_
    intro x _
    simp only [decide_eq_true_eq, not_lt]
    constructor
    · rintro ⟨_, _, hb3, hb4⟩
      exact ⟨hb3, hb4⟩
    · rintro ⟨ha2, hb2⟩
      exact ⟨le_trans h0 (le_trans h1 ha2), le_trans h1 ha2, ha2, hb2⟩
  have hden : z.dense_vegetation.count = d.countP (fun v => decide (th.high ≤ v)) := by
    rw [hz, hcd]
    have hcount := foldl_classify_count th ZoneCounts.dense_vegetation
        (fun v => ¬ v < 0 ∧ ¬ v < th.low ∧ ¬ v < th.normal ∧ ¬ v < th.high)
        (classifyPixel_dense th) d ⟨0, 0, 0, 0, 0⟩
    simp only [hcount]
    refine Nat.zero_add _ ▸ List.countP_congr ?_
    intro x _
    simp only [decide_eq_true_eq, not_lt]
    constructor
    · rintro ⟨_, _, _, hb4⟩
      exact hb4
    · intro ha2
      exact ⟨le_trans h0 (le_trans h1 (le_trans h2 ha2)),
        le_trans h1 (le_trans h2 ha2), le_trans h2 ha2, ha2⟩
  have hpart : z.water.count + z.bare_soil.count + z.sparse_vegetation.count
      + z.moderate_vegetation.count + z.dense_vegetation.count = d.length := by
    rw [hz, hcw, hcb, hcs, hcm, hcd]
    have htot := foldl_classify_total th d (⟨0, 0, 0, 0, 0⟩ : ZoneCounts)
    simpa [ZoneCounts.total] using htot
  refine ⟨hpart, hwat, hbar, hspa, hmod, hden, hval, ?_, ?_, ?_, ?_, ?_, ?_⟩
  · rw [hz, hcw, hval]
    rfl
  · rw [hz, hcb, hval]
    rfl
  · rw [hz, hcs, hval]
    rfl
  · rw [hz, hcm, hval]
    rfl
  · rw [hz, hcd, hval]
    rfl
  · rw [hz, hcw, hcb, hcs, hcm, hcd]
    have hsum : (d.foldl (classifyPixel th) ⟨0, 0, 0, 0, 0⟩).water
        + (d.foldl (classifyPixel th) ⟨0, 0, 0, 0, 0⟩).bare_soil
        + (d.foldl (classifyPixel th) ⟨0, 0, 0, 0, 0⟩).sparse_vegetation
        + (d.foldl (classifyPixel th) ⟨0, 0, 0, 0, 0⟩).moderate_vegetation
        + (d.foldl (classifyPixel th) ⟨0, 0, 0, 0, 0⟩).dense_vegetation = d.length := by
      have htot := foldl_classify_total th d (⟨0, 0, 0, 0, 0⟩ : ZoneCounts)
      simpa [ZoneCounts.total] using htot
    exact sum_round2_pct _ _ _ _ _ d.length hTne hsum

/-- Witness for C3 at the concrete band pair `rasterA`/`rasterB` and the
default thresholds. -/
theorem c3_witness :
    (identifyVegetationZones defaultThresholds
          (computeNDVIPixels rasterA.data rasterB.data)).water.count
        + (identifyVegetationZones defaultThresholds
            (computeNDVIPixels rasterA.data rasterB.data)).bare_soil.count
        + (identifyVegetationZones defaultThresholds
            (computeNDVIPixels rasterA.data rasterB.data)).sparse_vegetation.count
        + (identifyVegetationZones defaultThresholds
            (computeNDVIPixels rasterA.data rasterB.data)).moderate_vegetation.count
        + (identifyVegetationZones defaultThresholds
            (computeNDVIPixels rasterA.data rasterB.data)).dense_vegetation.count
      = (computeNDVIPixels rasterA.data rasterB.data).length :=
  (c3_zone_histogram defaultThresholds (by norm_num [defaultThresholds])
    (by norm_num [defaultThresholds]) (by norm_num [defaultThresholds])
    rasterA rasterB rfl rfl (by decide) _ rfl _ rfl).1

/-! ### Alert-rule lemmas and C4 -/

theorem mem_ite_singleton {α : Type} {c : Prop} [Decidable c] {x a : α}
    (h : a ∈ (if c then [x] else [])) : a = x ∧ c := by
  split_ifs at h with hc
  · simp only [List.mem_singleton] at h
    exact ⟨h, hc⟩
  · simp at h

theorem generateAlerts_types (th : Thresholds) (statistics : NdviStats) (zones : Zones) :
    ∀ a ∈ generateAlerts th statistics zones,
      (a = stressAlert statistics.average ∧ statistics.average < th.low)
      ∨ (a = variabilityAlert statistics.std ∧ statistics.std > 1/5)
      ∨ (a = bareSoilAlert zones.bare_soil.percentage ∧ zones.bare_soil.percentage > 30)
      ∨ (a = healthyAlert statistics.average ∧ statistics.average > th.high) := by
  intro a ha
  unfold generateAlerts at ha
  rcases List.mem_append.mp ha with h | h
  · rcases List.mem_append.mp h with h2 | h2
    · rcases List.mem_append.mp h2 with h3 | h3
      · exact Or.inl (mem_ite_singleton h3)
      · exact Or.inr (Or.inl (mem_ite_singleton h3))
    · exact Or.inr (Or.inr (Or.inl (mem_ite_singleton h2)))
  · exact Or.inr (Or.inr (Or.inr (mem_ite_singleton h)))

/-- C4: each of the four alert rules fires independently and produces
exactly one alert of its type and severity exactly when its threshold
condition holds; and when `low < high` the stress and healthy alerts can
never co-occur in one result. -/
theorem c4_alert_rules (th : Thresholds) (statistics : NdviStats) (zones : Zones) :
    ((generateAlerts th statistics zones).countP
        (fun a => decide (a.type = "LOW_VEGETATION_INDEX" ∧ a.severity = Severity.high))
      = if statistics.average < th.low then 1 else 0)
    ∧ ((generateAlerts th statistics zones).countP
        (fun a => decide (a.type = "HIGH_VARIABILITY" ∧ a.severity = Severity.medium))
      = if statistics.std > 1/5 then 1 else 0)
    ∧ ((generateAlerts th statistics zones).countP
        (fun a => decide (a.type = "EXCESSIVE_BARE_SOIL" ∧ a.severity = Severity.medium))
      = if zones.bare_soil.percentage > 30 then 1 else 0)
    ∧ ((generateAlerts th statistics zones).countP
        (fun a => decide (a.type = "HEALTHY_VEGETATION" ∧ a.severity = Severity.info))
      = if statistics.average > th.high then 1 else 0)
    ∧ (th.low < th.high →
        ¬ ((∃ a ∈ generateAlerts th statistics zones, a.type = "LOW_VEGETATION_INDEX")
          ∧ (∃ a ∈ generateAlerts th statistics zones, a.type = "HEALTHY_VEGETATION"))) := by
  refine ⟨?_, ?_, ?_, ?_, ?_⟩
  · unfold generateAlerts
    split_ifs <;>
      simp +decide [List.countP_append, List.countP_cons,
        stressAlert, variabilityAlert, bareSoilAlert, healthyAlert]
  · unfold generateAlerts
    split_ifs <;>
      simp +decide [List.countP_append, List.countP_cons,
        stressAlert, variabilityAlert, bareSoilAlert, healthyAlert]
  · unfold generateAlerts
    split_ifs <;>
      simp +decide [List.countP_append, List.countP_cons,
        stressAlert, variabilityAlert, bareSoilAlert, healthyAlert]
  · unfold generateAlerts
    split_ifs <;>
      simp +decide [List.countP_append, List.countP_cons,
        stressAlert, variabilityAlert, bareSoilAlert, healthyAlert]
  · intro hlh
    rintro ⟨⟨a, ha, hta⟩, ⟨b, hb, htb⟩⟩
    have h1 : statistics.average < th.low := by
      rcases generateAlerts_types th statistics zones a ha with
        ⟨rfl, hc⟩ | ⟨rfl, hc⟩ | ⟨rfl, hc⟩ | ⟨rfl, hc⟩
      · exact hc
      · simp +decide [variabilityAlert] at hta
      · simp +decide [bareSoilAlert] at hta
      · simp +decide [healthyAlert] at hta
    have h2 : statistics.average > th.high := by
      rcases generateAlerts_types th statistics zones b hb with
        ⟨rfl, hc⟩ | ⟨rfl, hc⟩ | ⟨rfl, hc⟩ | ⟨rfl, hc⟩
      · simp +decide [stressAlert] at htb
      · simp +decide [variabilityAlert] at htb
      · simp +decide [bareSoilAlert] at htb
      · exact hc
    linarith

/-- Witness for C4 at the concrete inputs `statsW`/`zonesW` and default
thresholds: the stress rule fires exactly once, and the stress and
healthy alerts do not co-occur. -/
theorem c4_witness :
    (generateAlerts defaultThresholds statsW zonesW).countP
        (fun a => decide (a.type = "LOW_VEGETATION_INDEX" ∧ a.severity = Severity.high)) = 1
    ∧ ¬ ((∃ a ∈ generateAlerts defaultThresholds statsW zonesW,
            a.type = "LOW_VEGETATION_INDEX")
        ∧ (∃ a ∈ generateAlerts defaultThresholds statsW zonesW,
            a.type = "HEALTHY_VEGETATION")) := by
  constructor
  · have h := (c4_alert_rules defaultThresholds statsW zonesW).1
    rw [if_pos (by norm_num [statsW, defaultThresholds])] at h
    exact h
  · exact (c4_alert_rules defaultThresholds statsW zonesW).2.2.2.2
      (by norm_num [defaultThresholds])

/-! ### Statistics lemmas and C10 -/

theorem foldl_add_sum (l : List ℚ) : ∀ c : ℚ, l.foldl (· + ·) c = c + l.sum := by
  induction l with
  | nil => intro c; simp
  | cons v rest ih =>
    intro c
    rw [List.foldl_cons, ih, List.sum_cons]
    ring

theorem le_foldl_min : ∀ (vs : List ℚ) (v x : ℚ), x ∈ v :: vs → vs.foldl min v ≤ x := by
  intro vs
  induction vs with
  | nil =>
    intro v x hx
    simp only [List.mem_singleton] at hx
    simp [hx]
  | cons w rest ih =>
    intro v x hx
    rw [List.foldl_cons]
    rcases List.mem_cons.mp hx with rfl | hx2
    · calc rest.foldl min (min x w) ≤ min x w := ih _ _ (List.mem_cons_self _ _)
        _ ≤ x := min_le_left _ _
    · rcases List.mem_cons.mp hx2 with rfl | hx3
      · calc rest.foldl min (min v x) ≤ min v x := ih _ _ (List.mem_cons_self _ _)
          _ ≤ x := min_le_right _ _
      · exact ih (min v w) x (List.mem_cons_of_mem _ hx3)

theorem foldl_max_ge : ∀ (vs : List ℚ) (v x : ℚ), x ∈ v :: vs → x ≤ vs.foldl max v := by
  intro vs
  induction vs with
  | nil =>
    intro v x hx
    simp only [List.mem_singleton] at hx
    simp [hx]
  | cons w rest ih =>
    intro v x hx
    rw [List.foldl_cons]
    rcases List.mem_cons.mp hx with rfl | hx2
    · calc x ≤ max x w := le_max_left _ _
        _ ≤ rest.foldl max (max x w) := ih _ _ (List.mem_cons_self _ _)
    · rcases List.mem_cons.mp hx2 with rfl | hx3
      · calc x ≤ max v x := le_max_right _ _
          _ ≤ rest.foldl max (max v x) := ih _ _ (List.mem_cons_self _ _)
      · exact ih (max v w) x (List.mem_cons_of_mem _ hx3)

/-- C10: with at least one valid index value the computed statistics
satisfy `min ≤ average ≤ max` and `std ≥ 0`, and the valid-pixel count
never exceeds the total-pixel count; with zero valid values the average,
min, max and standard deviation are all zero. -/
theorem c10_statistics_invariants (d : List ℚ) :
    (validFilter d ≠ [] →
      (calculateStatistics d).min ≤ (calculateStatistics d).average
      ∧ (calculateStatistics d).average ≤ (calculateStatistics d).max
      ∧ 0 ≤ (calculateStatistics d).std
      ∧ ∃ vp tp, (calculateStatistics d).validPixels = some vp
          ∧ (calculateStatistics d).totalPixels = some tp ∧ vp ≤ tp)
    ∧ (validFilter d = [] → calculateStatistics d = ⟨0, 0, 0, 0, none, none⟩) := by
  constructor
  · intro hne
    cases hval : validFilter d with
    | nil => exact absurd hval hne
    | cons v vs =>
      have hn : (0 : ℚ) < ((v :: vs).length : ℚ) := by
        have := Nat.succ_pos vs.length
        exact_mod_cast this
      have hsum : (v :: vs).foldl (· + ·) 0 = (v :: vs).sum := by
        rw [foldl_add_sum]
        ring
      have hminle : ∀ x ∈ v :: vs, vs.foldl min v ≤ x := le_foldl_min vs v
      have hmaxge : ∀ x ∈ v :: vs, x ≤ vs.foldl max v := foldl_max_ge vs v
      have hlow := List.card_nsmul_le_sum (v :: vs) (vs.foldl min v) hminle
      have hhigh := List.sum_le_card_nsmul (v :: vs) (vs.foldl max v) hmaxge
      rw [nsmul_eq_mul] at hlow hhigh
      have havg1 : vs.foldl min v ≤ (v :: vs).foldl (· + ·) 0 / ((v :: vs).length : ℚ) := by
        rw [hsum, le_div_iff₀ hn]
        linarith
      have havg2 : (v :: vs).foldl (· + ·) 0 / ((v :: vs).length : ℚ) ≤ vs.foldl max v := by
        rw [hsum, div_le_iff₀ hn]
        linarith
      have hlenle : (v :: vs).length ≤ d.length := by
        rw [← hval]
        unfold validFilter
        exact List.length_filter_le _ _
      unfold calculateStatistics
      rw [hval]
      exact ⟨round4_mono havg1, round4_mono havg2,
        round4_nonneg (sqrtQ_nonneg _),
        (v :: vs).length, d.length, rfl, rfl, hlenle⟩
  · intro hnil
    unfold calculateStatistics
    rw [hnil]

/-- Witness for C10: the non-empty branch at a list with two valid values
(one invalid), and the empty branch at an all-invalid list. -/
theorem c10_witness :
    ((calculateStatistics [(1 : ℚ), -3, 0]).min ≤ (calculateStatistics [(1 : ℚ), -3, 0]).average
      ∧ (calculateStatistics [(1 : ℚ), -3, 0]).average ≤ (calculateStatistics [(1 : ℚ), -3, 0]).max
      ∧ 0 ≤ (calculateStatistics [(1 : ℚ), -3, 0]).std
      ∧ ∃ vp tp, (calculateStatistics [(1 : ℚ), -3, 0]).validPixels = some vp
          ∧ (calculateStatistics [(1 : ℚ), -3, 0]).totalPixels = some tp ∧ vp ≤ tp)
    ∧ calculateStatistics [(-3 : ℚ)] = ⟨0, 0, 0, 0, none, none⟩ :=
  ⟨(c10_statistics_invariants [(1 : ℚ), -3, 0]).1 (by decide),
    (c10_statistics_invariants [(-3 : ℚ)]).2 (by decide)⟩

/-! ### C5 -/

/-- C5 counterexample: two invocations of `calculateNDVI` on identical
band inputs but at different clock instants return different results,
because the result embeds `timestamp: new Date()`; purity over the
ambient clock fails as claimed. -/
theorem c5_counterexample :
    calculateNDVI 0 defaultThresholds rasterA rasterA
      ≠ calculateNDVI 1 defaultThresholds rasterA rasterA := by
  intro h
  have h2 : resultTimestamp (calculateNDVI 0 defaultThresholds rasterA rasterA)
      = resultTimestamp (calculateNDVI 1 defaultThresholds rasterA rasterA) := by rw [h]
  have h3 : (some 0 : Option ℕ) = some 1 := h2
  simp at h3

/-- C5 amended: `calculateNDVI` is deterministic given a fixed clock
value, and every field except the timestamp is independent of the clock:
the timestamp-stripped results of invocations at any two instants
coincide. -/
theorem c5_amended_clock_independence (t₁ t₂ : ℕ) (th : Thresholds)
    (nirBand redBand : BandRaster) :
    (calculateNDVI t₁ th nirBand redBand).map resultCore
      = (calculateNDVI t₂ th nirBand redBand).map resultCore := by
  unfold calculateNDVI
  by_cases hcond : nirBand.width ≠ redBand.width ∨ nirBand.height ≠ redBand.height
  · rw [if_pos hcond, if_pos hcond]
  · rw [if_neg hcond, if_neg hcond]
    rfl

/-! ### C8 -/

/-- C8: a start request while a run is in progress is a pure no-op: the
result returns the state unchanged, launches no farm task, logs the
reentrancy warning, persists no report and sends no notification. -/
theorem c8_reentrancy_noop (s : JobState) (env : RunEnv) (h : s.isRunning = true) :
    runDailySatelliteAnalysis s env
      = { finalState := s, launchedFarms := [], warnings := [reentryWarning],
          report := none, adminErrorNotified := false } := by
  unfold runDailySatelliteAnalysis
  rw [h]
  simp

/-- Witness for C8 at a concrete mid-run state with nonzero statistics
and an environment holding one analysable farm. -/
theorem c8_witness :
    runDailySatelliteAnalysis runningState envW
      = { finalState := runningState, launchedFarms := [], warnings := [reentryWarning],
          report := none, adminErrorNotified := false } :=
  c8_reentrancy_noop runningState envW rfl

/-! ### C9 -/

/-- C9 counterexample: with a failing farm-listing query (and admin
contacts configured) the run is indistinguishable from a run over an
empty farm list — it completes trivially with `isRunning` back to
`false`, persists no report and notifies no administrator; it does not
move to any failed state. -/
theorem c9_counterexample :
    runDailySatelliteAnalysis idleState envListingError
        = runDailySatelliteAnalysis idleState envEmptyListing
    ∧ (runDailySatelliteAnalysis idleState envListingError).report = none
    ∧ (runDailySatelliteAnalysis idleState envListingError).adminErrorNotified = false
    ∧ (runDailySatelliteAnalysis idleState envListingError).finalState.isRunning = false :=
  ⟨rfl, rfl, rfl, rfl⟩

/-- C9 amended: whenever the farm listing fails, the error is caught
inside `_getActiveFarms` and turned into an empty list, so the run
completes as a trivial success with zero statistics: the outcome equals
that of an empty listing, no report is persisted, no administrator
failure notification is sent, and no farm task is launched. -/
theorem c9_amended_listing_failure (s : JobState) (env : RunEnv) (e : String)
    (hrun : s.isRunning = false) (hq : env.farmsQuery = .error e) :
    runDailySatelliteAnalysis s env
        = runDailySatelliteAnalysis s { env with farmsQuery := .ok [] }
    ∧ (runDailySatelliteAnalysis s env).report = none
    ∧ (runDailySatelliteAnalysis s env).adminErrorNotified = false
    ∧ (runDailySatelliteAnalysis s env).launchedFarms = []
    ∧ (runDailySatelliteAnalysis s env).finalState
        = ⟨false, some env.now, { initialStatistics with totalFarms := 0 }⟩ := by
  refine ⟨?_, ?_, ?_, ?_, ?_⟩ <;>
    (unfold runDailySatelliteAnalysis getActiveFarms; rw [hrun, hq]; try rfl)

/-- Witness for C9-amended at the concrete failing environment. -/
theorem c9_amended_witness :
    (runDailySatelliteAnalysis idleState envListingError).adminErrorNotified = false :=
  (c9_amended_listing_failure idleState envListingError "db down" rfl rfl).2.2.1

/-! ### Deduplication and stable-sort lemmas for C6 -/

theorem removeDuplicateAlertsGo_filter (k : String × Severity) :
    ∀ (seen : List (String × Severity)) (l : List FarmAlert),
      (removeDuplicateAlertsGo seen l).filter (fun a => decide (dedupKey a = k))
        = if k ∈ seen then [] else (l.filter (fun a => decide (dedupKey a = k))).take 1 := by
  intro seen l
  induction l generalizing seen with
  | nil =>
    unfold removeDuplicateAlertsGo
    simp only [List.filter_nil, List.take_nil]
    split <;> rfl
  | cons a rest ih =>
    unfold removeDuplicateAlertsGo
    by_cases hseen : dedupKey a ∈ seen
    · rw [if_pos hseen, ih seen]
      by_cases hk : dedupKey a = k
      · rw [if_pos (hk ▸ hseen), if_pos (hk ▸ hseen)]
      · rw [List.filter_cons_of_neg (by simp [hk])]
    · rw [if_neg hseen]
      by_cases hk : dedupKey a = k
      · have hknot : k ∉ seen := fun hm => hseen (by rw [hk]; exact hm)
        rw [List.filter_cons_of_pos (by simp [hk]), ih (dedupKey a :: seen),
          if_pos (by rw [← hk]; exact List.mem_cons_self _ _),
          if_neg hknot, List.filter_cons_of_pos (by simp [hk])]
        simp
      · have hne : ¬ (k = dedupKey a) := fun he => hk he.symm
        rw [List.filter_cons_of_neg (by simp [hk]), ih (dedupKey a :: seen)]
        by_cases hks : k ∈ seen
        · rw [if_pos (List.mem_cons_of_mem _ hks), if_pos hks]
        · rw [if_neg (by simp [List.mem_cons, hne, hks]), if_neg hks,
            List.filter_cons_of_neg (by simp [hk])]

theorem removeDuplicateAlertsGo_sublist :
    ∀ (seen : List (String × Severity)) (l : List FarmAlert),
      List.Sublist (removeDuplicateAlertsGo seen l) l := by
  intro seen l
  induction l generalizing seen with
  | nil => simp [removeDuplicateAlertsGo]
  | cons a rest ih =>
    unfold removeDuplicateAlertsGo
    split_ifs with hseen
    · exact (ih seen).cons a
    · exact (ih (dedupKey a :: seen)).cons₂ a

theorem mem_insertDesc {a x : FarmAlert} :
    ∀ {l : List FarmAlert}, x ∈ insertDesc a l ↔ x = a ∨ x ∈ l := by
  intro l
  induction l with
  | nil => simp [insertDesc]
  | cons b rest ih =>
    unfold insertDesc
    split_ifs
    · simp only [List.mem_cons]
      try tauto
    · simp only [List.mem_cons, ih]
      try tauto

theorem insertDesc_perm (a : FarmAlert) :
    ∀ l : List FarmAlert, List.Perm (insertDesc a l) (a :: l) := by
  intro l
  induction l with
  | nil => exact List.Perm.refl _
  | cons b rest ih =>
    unfold insertDesc
    split_ifs
    · exact List.Perm.refl _
    · exact List.Perm.trans (List.Perm.cons b ih) (List.Perm.swap a b rest)

theorem sortByPriorityDesc_perm :
    ∀ l : List FarmAlert, List.Perm (sortByPriorityDesc l) l := by
  intro l
  induction l with
  | nil => exact List.Perm.refl _
  | cons x xs ih =>
    have hstep : sortByPriorityDesc (x :: xs) = insertDesc x (sortByPriorityDesc xs) := rfl
    rw [hstep]
    exact List.Perm.trans (insertDesc_perm x _) (List.Perm.cons x ih)

theorem insertDesc_pairwise (a : FarmAlert) :
    ∀ l : List FarmAlert,
      l.Pairwise (fun x y => severityRank y.severity ≤ severityRank x.severity) →
      (insertDesc a l).Pairwise (fun x y => severityRank y.severity ≤ severityRank x.severity) := by
  intro l
  induction l with
  | nil =>
    intro _
    simp [insertDesc]
  | cons b rest ih =>
    intro hp
    obtain ⟨hb, hrest⟩ := List.pairwise_cons.mp hp
    unfold insertDesc
    split_ifs with hab
    · refine List.pairwise_cons.mpr ⟨?_, hp⟩
      intro y hy
      rcases List.mem_cons.mp hy with rfl | hy2
      · exact hab
      · exact le_trans (hb y hy2) hab
    · refine List.pairwise_cons.mpr ⟨?_, ih hrest⟩
      intro y hy
      rcases mem_insertDesc.mp hy with rfl | hy2
      · exact le_of_lt (lt_of_not_le hab)
      · exact hb y hy2

theorem sortByPriorityDesc_pairwise (l : List FarmAlert) :
    (sortByPriorityDesc l).Pairwise
      (fun x y => severityRank y.severity ≤ severityRank x.severity) := by
  induction l with
  | nil => simp [sortByPriorityDesc]
  | cons x xs ih =>
    have hstep : sortByPriorityDesc (x :: xs) = insertDesc x (sortByPriorityDesc xs) := rfl
    rw [hstep]
    exact insertDesc_pairwise x _ ih

theorem filter_insertDesc_neg (p : FarmAlert → Bool) (a : FarmAlert) (h : p a = false) :
    ∀ l : List FarmAlert, (insertDesc a l).filter p = l.filter p := by
  intro l
  induction l with
  | nil => simp [insertDesc, h]
  | cons b rest ih =>
    unfold insertDesc
    split_ifs
    · simp [List.filter_cons, h]
    · simp [List.filter_cons, ih]

theorem filter_insertDesc_pos (p : FarmAlert → Bool) (a : FarmAlert) (hpa : p a = true)
    (hrank : ∀ b, severityRank a.severity < severityRank b.severity → p b = false) :
    ∀ l : List FarmAlert, (insertDesc a l).filter p = a :: l.filter p := by
  intro l
  induction l with
  | nil => simp [insertDesc, hpa]
  | cons b rest ih =>
    unfold insertDesc
    split_ifs with hab
    · simp [List.filter_cons, hpa]
    · have hpb : p b = false := hrank b (lt_of_not_le hab)
      simp [List.filter_cons, hpb, ih]

theorem filter_sortByPriorityDesc (p : FarmAlert → Bool) (s : Severity)
    (hp : ∀ x, p x = true → x.severity = s) :
    ∀ l : List FarmAlert, (sortByPriorityDesc l).filter p = l.filter p := by
  intro l
  induction l with
  | nil => rfl
  | cons x xs ih =>
    have hstep : sortByPriorityDesc (x :: xs) = insertDesc x (sortByPriorityDesc xs) := rfl
    rw [hstep]
    by_cases hpx : p x = true
    · have hrank : ∀ b, severityRank x.severity < severityRank b.severity → p b = false := by
        intro b hlt
        by_contra hpb
        have hpb' : p b = true := by revert hpb; cases p b <;> simp
        rw [hp x hpx, hp b hpb'] at hlt
        exact lt_irrefl _ hlt
      rw [filter_insertDesc_pos p x hpx hrank, ih, List.filter_cons_of_pos hpx]
    · have hpx' : p x = false := by revert hpx; cases p x <;> simp
      rw [filter_insertDesc_neg p x hpx', ih, List.filter_cons_of_neg (by simp [hpx'])]

theorem processClaudeAlerts_farmId (t : ℕ) (farmInfo : Farm) (claude : ClaudeAnalysis)
    (recommendationFor : VisionFinding → Option String) :
    ∀ a ∈ processClaudeAlerts t farmInfo claude recommendationFor,
      a.farmId = farmInfo.id := by
  obtain ⟨fs, risk, summ⟩ := claude
  cases fs with
  | none =>
    intro a ha
    simp [processClaudeAlerts] at ha
  | some findings =>
    intro a ha
    rcases List.mem_append.mp ha with h | h
    · obtain ⟨x, _, rfl⟩ := List.mem_map.mp h
      rfl
    · obtain ⟨rfl, _⟩ := mem_ite_singleton h
      rfl

theorem processAnalysisAlertsList_farmId (t : ℕ) (farmInfo : Farm)
    (ndviAlerts : List NdviAlert) (claude : ClaudeAnalysis)
    (recommendationFor : VisionFinding → Option String) :
    ∀ a ∈ processAnalysisAlertsList t farmInfo ndviAlerts claude recommendationFor,
      a.farmId = farmInfo.id := by
  intro a ha
  rcases List.mem_append.mp ha with h | h
  · obtain ⟨x, _, rfl⟩ := List.mem_map.mp h
    rfl
  · exact processClaudeAlerts_farmId t farmInfo claude recommendationFor a h

/-! ### C6 -/

/-- C6: for every farm and every emitted alert list (index-derived
alerts first, then vision-derived), prioritisation keeps exactly one
alert per (farmId, type, severity) key — the first occurrence in
emission order — sorted descending by severity rank and stable within
equal ranks; and however many individual inserts succeed, at most one
alert per key is persisted. -/
theorem c6_alert_aggregation (t : ℕ) (farmInfo : Farm) (ndviAlerts : List NdviAlert)
    (claude : ClaudeAnalysis) (recommendationFor : VisionFinding → Option String)
    (emitted : List FarmAlert)
    (he : emitted = processAnalysisAlertsList t farmInfo ndviAlerts claude recommendationFor)
    (out : List FarmAlert) (ho : out = prioritizeAlerts emitted) :
    (∀ a ∈ out, a.farmId = farmInfo.id)
    ∧ (∀ (ty : String) (sv : Severity),
        out.filter (fun a => decide (a.farmId = farmInfo.id ∧ a.type = ty ∧ a.severity = sv))
          = (emitted.filter
              (fun a => decide (a.farmId = farmInfo.id ∧ a.type = ty ∧ a.severity = sv))).take 1)
    ∧ out.Pairwise (fun x y => severityRank y.severity ≤ severityRank x.severity)
    ∧ (∀ sv : Severity,
        out.filter (fun a => decide (a.severity = sv))
          = (removeDuplicateAlerts emitted).filter (fun a => decide (a.severity = sv)))
    ∧ (∀ (insertOk : FarmAlert → Bool) (ty : String) (sv : Severity),
        ((saveAlerts insertOk out).filter
            (fun a => decide (a.farmId = farmInfo.id ∧ a.type = ty ∧ a.severity = sv))).length
          ≤ 1) := by
  have hfarm : ∀ a ∈ emitted, a.farmId = farmInfo.id := by
    rw [he]
    exact processAnalysisAlertsList_farmId t farmInfo ndviAlerts claude recommendationFor
  have hmemout : ∀ a ∈ out, a ∈ emitted := by
    intro a ha
    rw [ho] at ha
    unfold prioritizeAlerts at ha
    have h1 : a ∈ removeDuplicateAlerts emitted := (sortByPriorityDesc_perm _).mem_iff.mp ha
    exact (removeDuplicateAlertsGo_sublist [] emitted).subset h1
  have hkey : ∀ (ty : String) (sv : Severity),
      out.filter (fun a => decide (a.farmId = farmInfo.id ∧ a.type = ty ∧ a.severity = sv))
        = (emitted.filter
            (fun a => decide (a.farmId = farmInfo.id ∧ a.type = ty ∧ a.severity = sv))).take 1 := by
    intro ty sv
    have hconv : ∀ (l : List FarmAlert), (∀ a ∈ l, a ∈ emitted) →
        l.filter (fun a => decide (a.farmId = farmInfo.id ∧ a.type = ty ∧ a.severity = sv))
          = l.filter (fun a => decide (dedupKey a = (ty, sv))) := by
      intro l hl
      refine List.filter_congr ?_
      intro a ha
      refine decide_eq_decide.mpr ?_
      unfold dedupKey
      constructor
      · rintro ⟨_, h2, h3⟩
        rw [h2, h3]
      · intro hpair
        exact ⟨hfarm a (hl a ha), congrArg Prod.fst hpair, congrArg Prod.snd hpair⟩
    rw [hconv out hmemout, hconv emitted (fun a ha => ha)]
    have hsev : ∀ x : FarmAlert,
        (fun a => decide (dedupKey a = (ty, sv))) x = true → x.severity = sv := by
      intro x hx
      have hx' : dedupKey x = (ty, sv) := of_decide_eq_true hx
      exact congrArg Prod.snd hx'
    rw [ho]
    unfold prioritizeAlerts
    rw [filter_sortByPriorityDesc _ sv hsev]
    unfold removeDuplicateAlerts
    rw [removeDuplicateAlertsGo_filter (ty, sv) [] emitted]
    rw [if_neg (List.not_mem_nil _)]
  refine ⟨fun a ha => hfarm a (hmemout a ha), hkey, ?_, ?_, ?_⟩
  · rw [ho]
    unfold prioritizeAlerts
    exact sortByPriorityDesc_pairwise _
  · intro sv
    rw [ho]
    unfold prioritizeAlerts
    exact filter_sortByPriorityDesc _ sv (fun x hx => of_decide_eq_true hx) _
  · intro insertOk ty sv
    have hsub : List.Sublist (saveAlerts insertOk out) out := List.filter_sublist _
    have hsub2 := hsub.filter
      (fun a => decide (a.farmId = farmInfo.id ∧ a.type = ty ∧ a.severity = sv))
    have hlen := hsub2.length_le
    rw [hkey ty sv] at hlen
    exact le_trans hlen (by simp)

/-- Witness for C6 at a concrete emission in which an NDVI stress alert
and a vision finding share the (type, severity) key. -/
theorem c6_witness :
    (prioritizeAlerts (processAnalysisAlertsList 0 farmW ndviW claudeW noRecommendation)).filter
        (fun a => decide (a.farmId = farmW.id ∧ a.type = "LOW_VEGETATION_INDEX"
          ∧ a.severity = Severity.high))
      = ((processAnalysisAlertsList 0 farmW ndviW claudeW noRecommendation).filter
          (fun a => decide (a.farmId = farmW.id ∧ a.type = "LOW_VEGETATION_INDEX"
            ∧ a.severity = Severity.high))).take 1 :=
  ((c6_alert_aggregation 0 farmW ndviW claudeW noRecommendation _ rfl _ rfl).2.1)
    "LOW_VEGETATION_INDEX" Severity.high

/-! ### C7 -/

/-- C7 (code bug evidence): a healthy analysis (mean above the high
threshold) produces exactly the index-derived healthy-vegetation alert —
of type `HEALTHY_VEGETATION`, severity `info` — and the farm has an
owner phone, yet the notification decision sends nothing: the dispatch
code tests for type `HEALTHY_CROP`, which no analysis path ever emits,
so the positive-status message is unreachable for index-derived healthy
alerts. -/
theorem c7_healthy_type_mismatch :
    (∃ a ∈ prioritizeAlerts (processAnalysisAlertsList 0 farmW
        (generateAlerts defaultThresholds statsHealthy zonesCalm)
        claudeEmptyAnalysis noRecommendation),
      a.type = "HEALTHY_VEGETATION" ∧ a.severity = Severity.info)
    ∧ farmW.ownerPhone.isSome = true
    ∧ sendWhatsAppAlerts farmW
        (prioritizeAlerts (processAnalysisAlertsList 0 farmW
          (generateAlerts defaultThresholds statsHealthy zonesCalm)
          claudeEmptyAnalysis noRecommendation))
      = WhatsNotification.nothing := by
  have halerts : generateAlerts defaultThresholds statsHealthy zonesCalm
      = [healthyAlert (4/5)] := by
    unfold generateAlerts
    rw [if_neg (by norm_num [statsHealthy, defaultThresholds]),
      if_neg (by norm_num [statsHealthy]),
      if_neg (by norm_num [zonesCalm]),
      if_pos (by norm_num [statsHealthy, defaultThresholds])]
    rfl
  have hlist : prioritizeAlerts (processAnalysisAlertsList 0 farmW
      (generateAlerts defaultThresholds statsHealthy zonesCalm)
      claudeEmptyAnalysis noRecommendation) = [healthyFarmAlertW] := by
    rw [halerts]
    rfl
  refine ⟨?_, rfl, ?_⟩
  · rw [hlist]
    exact ⟨healthyFarmAlertW, List.mem_cons_self _ _, rfl, rfl⟩
  · rw [hlist]
    rfl

end AgroIA
